import Mathlib

/-!
Verification of the AI news enrichment core (NEWS-AI-BACKEND).

Shallow embedding of:
- `app/services/factcheck.py` — `FactCheckService`: `_rating_to_score`,
  `_process_response`, `check_claim`;
- `app/services/ai_consumer.py` — `AINewsConsumer`: `process_article`,
  `_check_veracity`, `_save_to_database`, and the consumption loop in `start`.

Python strings are modelled as `List Char`; Python dicts with optional keys
use `Option` fields; the external HTTP claim-search API is an oracle
parameter; the database is an explicit record of three tables with state
passing; a persistence-layer failure during commit is an explicit boolean,
and the transactional save returns `Except` (error = re-raised exception
after rollback).
-/

/-- Python `str`, modelled as a list of characters. -/
abbrev Str := List Char

/-- Python prefix test used to realise substring search: `startsWithCh s h`
is true iff `s` is a leading segment of `h`. -/
def startsWithCh : Str → Str → Bool
  | [], _ => true
  | _ :: _, [] => false
  | a :: as, b :: bs => a == b && startsWithCh as bs

/-- Python's `sub in hay` substring containment on strings. -/
def containsSub (hay sub : Str) : Bool :=
  match hay with
  | [] => startsWithCh sub []
  | c :: t => startsWithCh sub (c :: t) || containsSub t sub

/-- Python `any(word in r for word in ws)`. -/
def containsAny (r : Str) (ws : List Str) : Bool :=
  ws.any (fun w => containsSub r w)

/-! ### `FactCheckService._rating_to_score` (factcheck.py lines 112–140) -/

/-- Words of the 100 bucket (`true, accurate, correct, verified`). -/
def trueWords : List Str :=
  [("true").toList, ("accurate").toList, ("correct").toList, ("verified").toList]

/-- Words of the 80 bucket (`mostly true, mostly accurate, largely true`). -/
def mostlyTrueWords : List Str :=
  [("mostly true").toList, ("mostly accurate").toList, ("largely true").toList]

/-- Words of the 50 bucket (`half true, mixed, partly, partially`). -/
def mixedWords : List Str :=
  [("half true").toList, ("mixed").toList, ("partly").toList, ("partially").toList]

/-- Words of the 20 bucket (`mostly false, mostly inaccurate, largely false`). -/
def mostlyFalseWords : List Str :=
  [("mostly false").toList, ("mostly inaccurate").toList, ("largely false").toList]

/-- Words of the 0 bucket (`false, fake, incorrect, wrong, pants on fire`). -/
def falseWords : List Str :=
  [("false").toList, ("fake").toList, ("incorrect").toList, ("wrong").toList,
   ("pants on fire").toList]

/-- Words of the excluded bucket (`unverifiable, unrated, satire`). -/
def unratedWords : List Str :=
  [("unverifiable").toList, ("unrated").toList, ("satire").toList]

/-- `FactCheckService._rating_to_score`: lowercase the textual rating, then
test the buckets in source order, first match wins; the last two branches of
the source both yield `None`. -/
def rating_to_score (rating : Str) : Option ℕ :=
  let rating_lower := rating.map Char.toLower
  if containsAny rating_lower trueWords then some 100
  else if containsAny rating_lower mostlyTrueWords then some 80
  else if containsAny rating_lower mixedWords then some 50
  else if containsAny rating_lower mostlyFalseWords then some 20
  else if containsAny rating_lower falseWords then some 0
  else if containsAny rating_lower unratedWords then none
  else none

/-! ### Fact-check response processing (`FactCheckService._process_response`) -/

/-- One entry of a claim's `claimReview` array; absent JSON keys are `none`
(the nested `publisher` dict is flattened to its `name` key). -/
structure ClaimReview where
  textualRating : Option Str
  publisherName : Option Str
  url : Option Str
deriving DecidableEq

/-- One entry of the response's `claims` array; absent keys are `none`. -/
structure RawClaim where
  text : Option Str
  claimant : Option Str
  claimReview : List ClaimReview
deriving DecidableEq

/-- The dict the service appends to `processed_claims` for one claim. -/
structure ProcessedClaim where
  claim_text : Str
  claimant : Str
  rating : Str
  score : Option ℕ
  publisher : Str
  review_url : Str
deriving DecidableEq

/-- The `status` strings the service can put in its result dict. -/
inductive Status where
  | no_api_key
  | access_denied
  | error
  | no_matching_claims
  | success
deriving DecidableEq

/-- The result dict `{veracity_score, claims, status}`; the neutral
replacement dict built by the orchestrator has no `status` key, hence
`Option`. -/
structure FactCheckResult where
  veracity_score : Option ℕ
  claims : List ProcessedClaim
  status : Option Status
deriving DecidableEq

/-- `claim_review = claim.get("claimReview", [{}])[0] if claim.get("claimReview") else {}`:
the first review when the array is non-empty, else an empty dict. -/
def headReview (c : RawClaim) : ClaimReview :=
  c.claimReview.headD ⟨none, none, none⟩

/-- Body of the per-claim loop of `_process_response` (lines 81–101): field
extraction with the source's `.get` defaults, and the rating mapped to a
numeric score. -/
def process_claim (c : RawClaim) : ProcessedClaim :=
  let cr := headReview c
  let rating := cr.textualRating.getD []
  { claim_text := c.text.getD []
    claimant := c.claimant.getD (("Unknown").toList)
    rating := rating
    score := rating_to_score rating
    publisher := cr.publisherName.getD (("Unknown").toList)
    review_url := cr.url.getD [] }

/-- Python 3 `round` on the exact ratio `n / d` (`d > 0`): round half to
even. `total_score / scored_count` in the source is float division, but with
`total_score ≤ 500` a sum of bucket values and `scored_count ≤ 5`, the float
is exact whenever the ratio can be a tie, so the exact-ratio rounding is the
float rounding. -/
def pyRoundNat (n d : ℕ) : ℕ :=
  let f := n / d
  let r := n % d
  if 2 * r < d then f
  else if d < 2 * r then f + 1
  else if f % 2 = 0 then f else f + 1

/-- `FactCheckService._process_response` (lines 66–110): empty `claims` array
gives the null no-matching-claims result; otherwise the first 5 claims are
processed, scorable scores are summed and counted, and `veracity_score` is
the rounded mean when anything was scorable. -/
def process_response (claims : List RawClaim) : FactCheckResult :=
  if claims.isEmpty then
    { veracity_score := none, claims := [], status := some Status.no_matching_claims }
  else
    let processed_claims := (claims.take 5).map process_claim
    let scores := processed_claims.filterMap (fun c => c.score)
    let veracity_score : Option ℕ :=
      if 0 < scores.length then some (pyRoundNat scores.sum scores.length) else none
    { veracity_score := veracity_score, claims := processed_claims,
      status := some Status.success }

/-! ### `FactCheckService.check_claim` and `AINewsConsumer._check_veracity` -/

/-- Outcome of one HTTP call to the claim-search endpoint: a 200 response
carrying the decoded `claims` array, a 403, another non-200 status, or a
raised network error. -/
inductive ApiReply where
  | ok (claims : List RawClaim)
  | denied
  | otherStatus
  | netError

/-- A fact-check result together with the HTTP query texts issued to obtain
it, in order. -/
structure CheckOutcome where
  result : FactCheckResult
  queries : List Str

/-- `FactCheckService.check_claim` (lines 26–64): with no API key, return the
null result without querying; otherwise query with `claim_text[:200]` and
translate the reply. -/
def check_claim (hasKey : Bool) (oracle : Str → ApiReply) (claim_text : Str) :
    CheckOutcome :=
  if !hasKey then
    { result := ⟨none, [], some Status.no_api_key⟩, queries := [] }
  else
    let q := claim_text.take 200
    match oracle q with
    | ApiReply.ok claims => { result := process_response claims, queries := [q] }
    | ApiReply.denied => { result := ⟨none, [], some Status.access_denied⟩, queries := [q] }
    | ApiReply.otherStatus => { result := ⟨none, [], some Status.error⟩, queries := [q] }
    | ApiReply.netError => { result := ⟨none, [], some Status.error⟩, queries := [q] }

/-- `content.split('.')[0]`: the segment before the first `'.'`. -/
def firstSentence (content : Str) : Str :=
  content.takeWhile (fun c => c != '.')

/-- `AINewsConsumer._check_veracity` (lines 153–167): primary query on the
title; one fallback on the first sentence of the content, only when the
primary result's status is `no_matching_claims` and the content is truthy. -/
def check_veracity (hasKey : Bool) (oracle : Str → ApiReply) (title content : Str) :
    CheckOutcome :=
  let o1 := check_claim hasKey oracle title
  if o1.result.status = some Status.no_matching_claims ∧ content ≠ [] then
    let o2 := check_claim hasKey oracle ((firstSentence content).take 200)
    { result := o2.result, queries := o1.queries ++ o2.queries }
  else o1

/-! ### Database model (tables touched by `AINewsConsumer._save_to_database`) -/

/-- The fact-check state of an `Article` row. Per the ORM model
(models.py lines 53–75) the only mapped fact-checking columns are
`veracity_score` and `fact_check_claims`; there is no `veracity_claims` and
no `veracity_checked_at` column anywhere in the schema. -/
structure ArticleRow where
  id : Str
  veracity_score : Option ℕ
  fact_check_claims : List ProcessedClaim
deriving DecidableEq

/-- A row of `ArticleSummary`, keyed by `(article_id, mode)`. -/
structure SummaryRow where
  article_id : Str
  mode : Str
  summary : Str
  generated_at : ℕ
deriving DecidableEq

/-- A row of `ArticleJargon`. -/
structure JargonRow where
  article_id : Str
  term : Str
  definition : Str
  difficulty : Str
deriving DecidableEq

/-- The stored state the consumer touches, rows in insertion order. -/
structure DB where
  articles : List ArticleRow
  summaries : List SummaryRow
  jargons : List JargonRow
deriving DecidableEq

/-- One element of the `jargon_list` handed to persistence: either not a
dict, or a dict whose `term`/`definition`/`difficulty` keys may be absent. -/
inductive JargonItem where
  | notDict
  | dict (term : Option Str) (definition : Option Str) (difficulty : Option Str)
deriving DecidableEq

/-- `db.query(Article).filter(Article.id == article_id).first()`. -/
def findArticle (db : DB) (article_id : Str) : Option ArticleRow :=
  db.articles.find? (fun a => a.id == article_id)

/-- SQLAlchemy `.first()`-then-mutate: rewrite the first row satisfying `p`
with `f`, leave every other row as it is. -/
def updateFirst (p : α → Bool) (f : α → α) : List α → List α
  | [] => []
  | a :: as => if p a then f a :: as else a :: updateFirst p f as

/-- Lines 190–192 as the ORM persists them: of the three assignments, only
`article.veracity_score = ...` targets a mapped column. The names
`veracity_claims` and `veracity_checked_at` are not columns of `Article`
(models.py lines 53–75), so those two assignments set unmapped Python
instance attributes that the session drops at commit: the stored
`fact_check_claims` column (and any timestamp) is never written. The first
argument models the evaluated-but-discarded `datetime.utcnow()`. -/
def applyVeracity (_now : ℕ) (v : FactCheckResult) (a : ArticleRow) : ArticleRow :=
  { a with veracity_score := v.veracity_score }

/-- Lines 195–227 for one mode: skip a falsy summary; else update the first
existing `(article_id, mode)` row in place or insert a new row. -/
def saveSummary (now : ℕ) (db : DB) (article_id mode : Str) (s : Option Str) : DB :=
  match s with
  | none => db
  | some text =>
    if text.isEmpty then db
    else if db.summaries.any (fun r => r.article_id == article_id && r.mode == mode) then
      let rows := updateFirst (fun r => r.article_id == article_id && r.mode == mode)
        (fun r => { r with summary := text, generated_at := now }) db.summaries
      { db with summaries := rows }
    else
      { db with summaries := db.summaries ++ [⟨article_id, mode, text, now⟩] }

/-- Lines 237–244: the row added for one `jargon_list` item, or `none` when
the item is filtered out (`isinstance(item, dict) and item.get("term")`). -/
def jargonRowOf (article_id : Str) : JargonItem → Option JargonRow
  | JargonItem.notDict => none
  | JargonItem.dict term defn diff =>
    match term with
    | none => none
    | some t =>
      if t.isEmpty then none
      else some ⟨article_id, t, defn.getD [], diff.getD (("intermediate").toList)⟩

/-- `AINewsConsumer._save_to_database` (lines 169–254), the committed state:
missing article returns the state unchanged; otherwise conditional veracity
update, two summary upserts, and — only for a truthy `jargon_list` — delete
of all the article's jargon rows followed by insertion of the valid items. -/
def save_to_database (now : ℕ) (db : DB) (article_id : Str)
    (kid_summary pro_summary : Option Str) (jargon_list : List JargonItem)
    (veracity_data : FactCheckResult) : DB :=
  if !(findArticle db article_id).isSome then db
  else
    let db1 :=
      if veracity_data.veracity_score.isSome || !veracity_data.claims.isEmpty then
        let rows := updateFirst (fun a => a.id == article_id)
          (applyVeracity now veracity_data) db.articles
        { db with articles := rows }
      else db
    let db2 := saveSummary now db1 article_id (("kid").toList) kid_summary
    let db3 := saveSummary now db2 article_id (("pro").toList) pro_summary
    if jargon_list.isEmpty then db3
    else
      { db3 with jargons :=
          db3.jargons.filter (fun r => !(r.article_id == article_id))
            ++ jargon_list.filterMap (jargonRowOf article_id) }

/-- The transactional wrapper (lines 178–254): the session either commits the
whole pass or rolls every write back and re-raises. A persistence-layer
failure is the explicit `commitOk = false`; a missing article returns early
without attempting the commit. -/
def save_to_database_tx (commitOk : Bool) (now : ℕ) (db : DB) (article_id : Str)
    (kid_summary pro_summary : Option Str) (jargon_list : List JargonItem)
    (veracity_data : FactCheckResult) : Except Unit DB :=
  if !(findArticle db article_id).isSome then Except.ok db
  else if commitOk then
    Except.ok (save_to_database now db article_id kid_summary pro_summary
      jargon_list veracity_data)
  else Except.error ()

/-! ### `AINewsConsumer.process_article` and the consumption loop -/

/-- The Kafka payload fields read by `process_article`; absent keys are
`none` (`title` and `content` are read with default `""`). -/
structure RawEvent where
  id : Option Str
  title : Option Str
  content : Option Str
deriving DecidableEq

/-- Python truthiness test of an optional string: falsy iff absent or empty. -/
def falsyOpt : Option Str → Bool
  | none => true
  | some s => s.isEmpty

/-- The neutral replacement dict `{"veracity_score": None, "claims": []}`
substituted when the veracity subtask raised (line 122). -/
def neutralVeracity : FactCheckResult := ⟨none, [], none⟩

/-- What one run of `process_article` did with its event. -/
inductive EventOutcome where
  | dropped
  | done (db' : DB)
  | failed
deriving DecidableEq

/-- `AINewsConsumer.process_article` (lines 78–133). The four subtask results
arrive as `Except` (a raised exception or a value); a raising subtask is
replaced by its neutral default (lines 111–122) and the rest go to
persistence. An event with falsy `id` or `content` is dropped before any
subtask result is consulted. -/
def process_article (now : ℕ) (db : DB) (event : RawEvent)
    (kidR proR : Except Unit (Option Str)) (jarR : Except Unit (List JargonItem))
    (verR : Except Unit FactCheckResult) (commitOk : Bool) : EventOutcome :=
  let article_id := event.id
  let content := (event.content).getD []
  if falsyOpt article_id || content.isEmpty then EventOutcome.dropped
  else
    let kid_summary := match kidR with | Except.ok v => v | Except.error _ => none
    let pro_summary := match proR with | Except.ok v => v | Except.error _ => none
    let jargon_list := match jarR with | Except.ok v => v | Except.error _ => []
    let veracity_data := match verR with
      | Except.ok v => v
      | Except.error _ => neutralVeracity
    match save_to_database_tx commitOk now db (article_id.getD []) kid_summary
        pro_summary jargon_list veracity_data with
    | Except.ok db' => EventOutcome.done db'
    | Except.error _ => EventOutcome.failed

/-- One delivered message with the behaviour of its environment: the event,
the four subtask results, whether the commit succeeds, and the wall clock. -/
structure ConsumedMessage where
  event : RawEvent
  kidR : Except Unit (Option Str)
  proR : Except Unit (Option Str)
  jarR : Except Unit (List JargonItem)
  verR : Except Unit FactCheckResult
  commitOk : Bool
  now : ℕ

/-- One iteration of the loop in `start` (lines 57–65): a dropped event or a
caught, re-raised persistence error leaves the stored state as it was. -/
def stepConsumer (db : DB) (m : ConsumedMessage) : DB :=
  match process_article m.now db m.event m.kidR m.proR m.jarR m.verR m.commitOk with
  | EventOutcome.dropped => db
  | EventOutcome.done db' => db'
  | EventOutcome.failed => db

/-- The consumption loop over a finite schedule of messages. -/
def runConsumer (db : DB) : List ConsumedMessage → DB
  | [] => db
  | m :: ms => runConsumer (stepConsumer db m) ms

/-- The scorable numeric scores among the processed claims of a response. -/
def scorableScores (claims : List RawClaim) : List ℕ :=
  ((claims.take 5).map process_claim).filterMap (fun c => c.score)

/-- A response claim rated `"True"` (score 100). -/
def exClaimTrue : RawClaim :=
  ⟨some (("c1").toList), none, [⟨some (("True").toList), none, none⟩]⟩

/-- A response claim rated `"False"` (score 0). -/
def exClaimFalse : RawClaim :=
  ⟨some (("c2").toList), none, [⟨some (("False").toList), none, none⟩]⟩

/-- A response claim rated `"Unrated"` (excluded from the mean). -/
def exClaimUnrated : RawClaim :=
  ⟨some (("c3").toList), none, [⟨some (("Unrated").toList), none, none⟩]⟩

/-- The spec's example response: claims scored `[100, 0]` plus one excluded
claim. -/
def exampleClaims : List RawClaim := [exClaimTrue, exClaimFalse, exClaimUnrated]

/-- A claim review already stored in `"a1"`'s `fact_check_claims` column. -/
def exStoredReview : ProcessedClaim :=
  ⟨("old claim").toList, ("Unknown").toList, ("False").toList, some 0,
   ("Old Reviewer").toList, []⟩

/-- A fresh claim review produced by the scorer for the same article. -/
def exNewReview : ProcessedClaim :=
  ⟨("new claim").toList, ("Unknown").toList, ("True").toList, some 100,
   ("New Reviewer").toList, []⟩

/-- A stored article row with id `"a1"`, no score yet, and one previously
recorded claim review in `fact_check_claims`. -/
def exArticle : ArticleRow := ⟨("a1").toList, none, [exStoredReview]⟩

/-- A previously stored jargon row of article `"a1"`. -/
def exJargonA : JargonRow :=
  ⟨("a1").toList, ("old term").toList, ("old def").toList, ("basic").toList⟩

/-- A previously stored jargon row of another article. -/
def exJargonB : JargonRow :=
  ⟨("b2").toList, ("keep").toList, ("other def").toList, ("basic").toList⟩

/-- A concrete stored state: one article, no summaries, two jargon rows. -/
def exDB : DB := ⟨[exArticle], [], [exJargonA, exJargonB]⟩

/-- A concrete valid event for article `"a1"`. -/
def exEvent : RawEvent :=
  ⟨some (("a1").toList), some (("Title").toList), some (("Body text. More").toList)⟩

/-- An empty stored state with no article rows. -/
def emptyDB : DB := ⟨[], [], []⟩

theorem startsWithCh_iff (s h : Str) : startsWithCh s h = true ↔ s <+: h := by
  induction s generalizing h with
  | nil =>
    rw [show startsWithCh [] h = true from rfl]
    simp
  | cons a as ih =>
    cases h with
    | nil =>
      rw [show startsWithCh (a :: as) [] = false from rfl]
      simp
    | cons b bs =>
      rw [show startsWithCh (a :: as) (b :: bs) = (a == b && startsWithCh as bs)
        from rfl]
      simp [ih, List.cons_prefix_cons]

theorem containsSub_iff (hay sub : Str) :
    containsSub hay sub = true ↔ sub <:+: hay := by
  induction hay with
  | nil =>
    rw [show containsSub [] sub = startsWithCh sub [] from rfl, startsWithCh_iff]
    simp
  | cons c t ih =>
    rw [show containsSub (c :: t) sub = (startsWithCh sub (c :: t) || containsSub t sub)
      from rfl]
    simp [startsWithCh_iff, ih, List.infix_cons_iff]

/-- Substring containment is monotone in the needle along the infix order. -/
theorem containsSub_mono {hay s s' : Str} (hs : containsSub hay s = true)
    (hsub : s' <:+: s) : containsSub hay s' = true :=
  (containsSub_iff hay s').mpr (hsub.trans ((containsSub_iff hay s).mp hs))

/-- Every phrase of the 80 bucket contains a word of the 100 bucket as a
substring, so a string matching the 80 bucket already matched the 100 bucket:
the 80 branch of `_rating_to_score` is unreachable. -/
theorem mostlyTrue_subsumed (r : Str) (h : containsAny r mostlyTrueWords = true) :
    containsAny r trueWords = true := by
  rcases List.any_eq_true.mp h with ⟨w, hw, hsub⟩
  simp only [mostlyTrueWords, List.mem_cons, List.not_mem_nil, or_false] at hw
  apply List.any_eq_true.mpr
  rcases hw with h1 | h1 | h1
  · exact ⟨("true").toList, by simp [trueWords],
      containsSub_mono (h1 ▸ hsub) ⟨("mostly ").toList, [], by decide⟩⟩
  · exact ⟨("accurate").toList, by simp [trueWords],
      containsSub_mono (h1 ▸ hsub) ⟨("mostly ").toList, [], by decide⟩⟩
  · exact ⟨("true").toList, by simp [trueWords],
      containsSub_mono (h1 ▸ hsub) ⟨("largely ").toList, [], by decide⟩⟩

/-! ### Helper lemmas -/

/-- Round-half-to-even of `n / d` is at distance at most `1/2` from the exact
ratio: it is a nearest integer to the mean. -/
theorem pyRoundNat_nearest (n d : ℕ) (hd : 0 < d) :
    |(pyRoundNat n d : ℚ) - (n : ℚ) / (d : ℚ)| ≤ 1 / 2 := by
  have hd' : (0 : ℚ) < (d : ℚ) := by exact_mod_cast hd
  have hmod : ((n % d : ℕ) : ℚ) < (d : ℚ) := by exact_mod_cast Nat.mod_lt n hd
  have hn : (n : ℚ) = (d : ℚ) * ((n / d : ℕ) : ℚ) + ((n % d : ℕ) : ℚ) := by
    exact_mod_cast (Nat.div_add_mod n d).symm
  have hdiv : (n : ℚ) / (d : ℚ) = ((n / d : ℕ) : ℚ) + ((n % d : ℕ) : ℚ) / (d : ℚ) := by
    rw [hn]
    field_simp
    ring
  rw [hdiv]
  by_cases h1 : 2 * (n % d) < d
  · have hval : pyRoundNat n d = n / d := by
      unfold pyRoundNat
      simp [h1]
    have h1' : 2 * ((n % d : ℕ) : ℚ) < (d : ℚ) := by exact_mod_cast h1
    have hr : ((n % d : ℕ) : ℚ) / (d : ℚ) ≤ 1 / 2 := by
      rw [div_le_iff₀ hd']
      linarith
    have e : ((n / d : ℕ) : ℚ) - (((n / d : ℕ) : ℚ) + ((n % d : ℕ) : ℚ) / (d : ℚ))
        = -(((n % d : ℕ) : ℚ) / (d : ℚ)) := by ring
    rw [hval, e, abs_neg, abs_of_nonneg (by positivity)]
    exact hr
  · by_cases h2 : d < 2 * (n % d)
    · have hval : pyRoundNat n d = n / d + 1 := by
        unfold pyRoundNat
        simp [h1, h2]
      have h2' : (d : ℚ) < 2 * ((n % d : ℕ) : ℚ) := by exact_mod_cast h2
      have hr : 1 / 2 ≤ ((n % d : ℕ) : ℚ) / (d : ℚ) := by
        rw [le_div_iff₀ hd']
        linarith
      have hr1 : ((n % d : ℕ) : ℚ) / (d : ℚ) < 1 := by
        rw [div_lt_one hd']
        exact hmod
      have e : (((n / d : ℕ) + 1 : ℕ) : ℚ)
          - (((n / d : ℕ) : ℚ) + ((n % d : ℕ) : ℚ) / (d : ℚ))
          = 1 - ((n % d : ℕ) : ℚ) / (d : ℚ) := by push_cast; ring
      rw [hval, e, abs_of_nonneg (by linarith)]
      linarith
    · have heq : 2 * (n % d) = d := by omega
      have heq' : 2 * ((n % d : ℕ) : ℚ) = (d : ℚ) := by exact_mod_cast heq
      have hr : ((n % d : ℕ) : ℚ) / (d : ℚ) = 1 / 2 := by
        rw [div_eq_iff (ne_of_gt hd')]
        linarith
      by_cases h3 : (n / d) % 2 = 0
      · have hval : pyRoundNat n d = n / d := by
          unfold pyRoundNat
          simp [h1, h2, h3]
        have e : ((n / d : ℕ) : ℚ) - (((n / d : ℕ) : ℚ) + ((n % d : ℕ) : ℚ) / (d : ℚ))
            = -(((n % d : ℕ) : ℚ) / (d : ℚ)) := by ring
        rw [hval, e, abs_neg, abs_of_nonneg (by positivity), hr]
      · have hval : pyRoundNat n d = n / d + 1 := by
          unfold pyRoundNat
          simp [h1, h2, h3]
        have e : (((n / d : ℕ) + 1 : ℕ) : ℚ)
            - (((n / d : ℕ) : ℚ) + ((n % d : ℕ) : ℚ) / (d : ℚ))
            = 1 - ((n % d : ℕ) : ℚ) / (d : ℚ) := by push_cast; ring
        rw [hval, e, hr, abs_of_nonneg (by norm_num)]
        norm_num

/-- A summary upsert never touches the jargon table. -/
theorem saveSummary_jargons (now : ℕ) (db : DB) (aid mode : Str) (s : Option Str) :
    (saveSummary now db aid mode s).jargons = db.jargons := by
  cases s with
  | none => rfl
  | some text =>
    simp only [saveSummary]
    split_ifs <;> rfl

/-- A summary upsert never touches the article table. -/
theorem saveSummary_articles (now : ℕ) (db : DB) (aid mode : Str) (s : Option Str) :
    (saveSummary now db aid mode s).articles = db.articles := by
  cases s with
  | none => rfl
  | some text =>
    simp only [saveSummary]
    split_ifs <;> rfl

/-- `updateFirst` with a point-fixed function: searching again after the
rewrite finds the image of the row found before, when `f` preserves `p`. -/
theorem find?_updateFirst (p : α → Bool) (f : α → α)
    (hp : ∀ x, p x = true → p (f x) = true) (l : List α) :
    List.find? p (updateFirst p f l) = (List.find? p l).map f := by
  induction l with
  | nil => rfl
  | cons a as ih =>
    by_cases h : p a = true
    · rw [show updateFirst p f (a :: as) = f a :: as by simp [updateFirst, h]]
      rw [List.find?_cons_of_pos _ (hp a h), List.find?_cons_of_pos _ h]
      rfl
    · have h' : p a = false := by simpa using h
      rw [show updateFirst p f (a :: as) = a :: updateFirst p f as by
        simp [updateFirst, h']]
      rw [List.find?_cons_of_neg _ (by simp [h']), List.find?_cons_of_neg _ (by simp [h'])]
      exact ih

/-- With a committing session, the transactional save succeeds and yields the
committed state, found article or not. -/
theorem save_tx_ok (now : ℕ) (db : DB) (aid : Str) (k p : Option Str)
    (j : List JargonItem) (v : FactCheckResult) :
    save_to_database_tx true now db aid k p j v
      = Except.ok (save_to_database now db aid k p j v) := by
  unfold save_to_database_tx
  split_ifs with h h2
  · unfold save_to_database
    rw [if_pos h]
  · rfl
  · exact absurd rfl h2

/-- Jargon facet of a committed save pass with an existing article: untouched
for a falsy term list, wholesale replacement otherwise. -/
theorem save_jargons_found (now : ℕ) (db : DB) (aid : Str) (k p : Option Str)
    (j : List JargonItem) (v : FactCheckResult)
    (hfa : (findArticle db aid).isSome = true) :
    (save_to_database now db aid k p j v).jargons
      = if j.isEmpty then db.jargons
        else db.jargons.filter (fun r => !(r.article_id == aid))
          ++ j.filterMap (jargonRowOf aid) := by
  unfold save_to_database
  rw [if_neg (by simp [hfa])]
  by_cases hj : j.isEmpty
  · rw [if_pos hj, if_pos hj, saveSummary_jargons, saveSummary_jargons]
    split_ifs <;> rfl
  · rw [if_neg hj, if_neg hj]
    have : ∀ dbx : DB,
        (saveSummary now (saveSummary now dbx aid (("kid").toList) k)
          aid (("pro").toList) p).jargons = dbx.jargons := by
      intro dbx
      rw [saveSummary_jargons, saveSummary_jargons]
    rw [this]
    split_ifs <;> rfl

/-- Article-table facet of a committed save pass with an existing article:
the veracity columns are rewritten on the first matching row exactly when the
new result has a numeric score or a non-empty claim list. -/
theorem save_articles_found (now : ℕ) (db : DB) (aid : Str) (k p : Option Str)
    (j : List JargonItem) (v : FactCheckResult)
    (hfa : (findArticle db aid).isSome = true) :
    (save_to_database now db aid k p j v).articles
      = if v.veracity_score.isSome || !v.claims.isEmpty then
          updateFirst (fun x => x.id == aid) (applyVeracity now v) db.articles
        else db.articles := by
  unfold save_to_database
  rw [if_neg (by simp [hfa])]
  have hsum : ∀ dbx : DB,
      (saveSummary now (saveSummary now dbx aid (("kid").toList) k)
        aid (("pro").toList) p).articles = dbx.articles := by
    intro dbx
    rw [saveSummary_articles, saveSummary_articles]
  by_cases hv : v.veracity_score.isSome || !v.claims.isEmpty
  · rw [if_pos hv, if_pos hv]
    by_cases hj : j.isEmpty
    · rw [if_pos hj, hsum]
    · rw [if_neg hj]
      show (saveSummary now (saveSummary now _ aid (("kid").toList) k)
        aid (("pro").toList) p).articles = _
      rw [hsum]
  · rw [if_neg hv, if_neg hv]
    by_cases hj : j.isEmpty
    · rw [if_pos hj, hsum]
    · rw [if_neg hj]
      show (saveSummary now (saveSummary now _ aid (("kid").toList) k)
        aid (("pro").toList) p).articles = _
      rw [hsum]

/-- When the new result has a null score and an empty claim list, the article
table is left exactly as it was, found article or not. -/
theorem save_articles_skip (now : ℕ) (db : DB) (aid : Str) (k p : Option Str)
    (j : List JargonItem) (v : FactCheckResult)
    (hv : v.veracity_score = none) (hc : v.claims = []) :
    (save_to_database now db aid k p j v).articles = db.articles := by
  by_cases hfa : (findArticle db aid).isSome = true
  · rw [save_articles_found now db aid k p j v hfa,
      if_neg (by simp [hv, hc])]
  · unfold save_to_database
    rw [if_pos (by simp [Bool.not_eq_true] at hfa ⊢; exact hfa)]

/-! ### Claim theorems -/

/-- C1 counterexample: the claim's own example says `"Mostly True"` maps to
80, but `_rating_to_score` lowercases to `"mostly true"`, which contains the
first-bucket word `"true"`, so the first match gives 100, not 80. -/
theorem C1_counterexample :
    rating_to_score (("Mostly True").toList) = some 100 ∧
    rating_to_score (("Mostly True").toList) ≠ some 80 := by
  constructor
  · rfl
  · decide

/-- C1 (amended): the mapping is decided by case-insensitive substring
matching in the table's priority order, first match wins, and the excluded
bucket yields no numeric score while the claim stays in the claims list; but
every phrase of the 80 bucket contains a 100-bucket word, so that row is
unreachable and `"Mostly True"` maps to 100 (not 80); `"Pants on Fire"` maps
to 0 and `"Unrated"` gets no numeric score. -/
theorem C1_rating_table :
    (∀ r : Str, containsAny (r.map Char.toLower) mostlyTrueWords = true →
      containsAny (r.map Char.toLower) trueWords = true) ∧
    (∀ r : Str, containsAny (r.map Char.toLower) trueWords = true →
      rating_to_score r = some 100) ∧
    (∀ r : Str, containsAny (r.map Char.toLower) trueWords = false →
      containsAny (r.map Char.toLower) mixedWords = true →
      rating_to_score r = some 50) ∧
    (∀ r : Str, containsAny (r.map Char.toLower) trueWords = false →
      containsAny (r.map Char.toLower) mixedWords = false →
      containsAny (r.map Char.toLower) mostlyFalseWords = true →
      rating_to_score r = some 20) ∧
    (∀ r : Str, containsAny (r.map Char.toLower) trueWords = false →
      containsAny (r.map Char.toLower) mixedWords = false →
      containsAny (r.map Char.toLower) mostlyFalseWords = false →
      containsAny (r.map Char.toLower) falseWords = true →
      rating_to_score r = some 0) ∧
    (∀ r : Str, containsAny (r.map Char.toLower) trueWords = false →
      containsAny (r.map Char.toLower) mixedWords = false →
      containsAny (r.map Char.toLower) mostlyFalseWords = false →
      containsAny (r.map Char.toLower) falseWords = false →
      rating_to_score r = none) ∧
    rating_to_score (("Mostly True").toList) = some 100 ∧
    rating_to_score (("Pants on Fire").toList) = some 0 ∧
    rating_to_score (("Unrated").toList) = none ∧
    (∀ c : RawClaim, (process_response [c]).claims = [process_claim c]) := by
  have shadow : ∀ r : Str, containsAny (r.map Char.toLower) trueWords = false →
      containsAny (r.map Char.toLower) mostlyTrueWords = false := by
    intro r h1
    cases hmt : containsAny (r.map Char.toLower) mostlyTrueWords
    · rfl
    · exact absurd (mostlyTrue_subsumed _ hmt) (by simp [h1])
  refine ⟨fun r h => mostlyTrue_subsumed _ h, ?_, ?_, ?_, ?_, ?_, by rfl, by rfl,
    by rfl, ?_⟩
  · intro r h1
    simp [rating_to_score, h1]
  · intro r h1 h3
    simp [rating_to_score, h1, shadow r h1, h3]
  · intro r h1 h3 h4
    simp [rating_to_score, h1, shadow r h1, h3, h4]
  · intro r h1 h3 h4 h5
    simp [rating_to_score, h1, shadow r h1, h3, h4, h5]
  · intro r h1 h3 h4 h5
    simp [rating_to_score, h1, shadow r h1, h3, h4, h5]
  · intro c
    simp [process_response]

/-- C1 witness: the amended table evaluated on representative ratings via the
theorem's bucket implications. -/
theorem C1_rating_table_witness :
    rating_to_score (("True").toList) = some 100 ∧
    rating_to_score (("Mixed").toList) = some 50 ∧
    rating_to_score (("Mostly False").toList) = some 20 ∧
    rating_to_score (("Fake").toList) = some 0 ∧
    rating_to_score (("Satire").toList) = none :=
  ⟨C1_rating_table.2.1 (("True").toList) (by rfl),
   C1_rating_table.2.2.1 (("Mixed").toList) (by rfl) (by rfl),
   C1_rating_table.2.2.2.1 (("Mostly False").toList) (by rfl) (by rfl) (by rfl),
   C1_rating_table.2.2.2.2.1 (("Fake").toList) (by rfl) (by rfl) (by rfl) (by rfl),
   C1_rating_table.2.2.2.2.2.1 (("Satire").toList) (by rfl) (by rfl) (by rfl) (by rfl)⟩

/-- Unfolding of `_process_response` on a non-empty claims array. -/
theorem process_response_cons (a : RawClaim) (as : List RawClaim) :
    process_response (a :: as)
      = ⟨if 0 < (scorableScores (a :: as)).length then
           some (pyRoundNat (scorableScores (a :: as)).sum
             (scorableScores (a :: as)).length)
         else none,
         ((a :: as).take 5).map process_claim,
         some Status.success⟩ := rfl

/-- C3: at most the first 5 claim reviews are processed; `veracity_score` is
the banker's rounding of the arithmetic mean of the scorable scores — a
nearest integer to the mean — and is null when nothing scorable was
processed, including when no claims were found at all. -/
theorem C3_mean_score (claims : List RawClaim) :
    (claims = [] →
      process_response claims
        = ⟨none, [], some Status.no_matching_claims⟩) ∧
    (claims ≠ [] →
      (process_response claims).claims = (claims.take 5).map process_claim ∧
      (process_response claims).claims.length ≤ 5 ∧
      (scorableScores claims = [] →
        (process_response claims).veracity_score = none) ∧
      (scorableScores claims ≠ [] →
        (process_response claims).veracity_score
          = some (pyRoundNat (scorableScores claims).sum (scorableScores claims).length) ∧
        |((pyRoundNat (scorableScores claims).sum (scorableScores claims).length : ℚ))
            - ((scorableScores claims).sum : ℚ) / ((scorableScores claims).length : ℚ)|
          ≤ 1 / 2)) := by
  cases claims with
  | nil =>
    exact ⟨fun _ => rfl, fun h => absurd rfl h⟩
  | cons a as =>
    refine ⟨fun h => absurd h (by simp), fun _ => ?_⟩
    rw [process_response_cons]
    refine ⟨rfl, ?_, ?_, ?_⟩
    · show (((a :: as).take 5).map process_claim).length ≤ 5
      rw [List.length_map]
      exact List.length_take_le 5 _
    · intro hs
      show (if 0 < (scorableScores (a :: as)).length then _ else none) = none
      rw [hs]
      simp
    · intro hs
      have hlen : 0 < (scorableScores (a :: as)).length := List.length_pos.mpr hs
      constructor
      · show (if 0 < (scorableScores (a :: as)).length then _ else none) = _
        rw [if_pos hlen]
      · exact pyRoundNat_nearest _ _ hlen

/-- C3 witness: on the example response the mean of `[100, 0]` is 50, all
three claims are retained, and the excluded claim carries no score. -/
theorem C3_mean_score_witness :
    (process_response exampleClaims).veracity_score = some 50 ∧
    (process_response exampleClaims).claims.length = 3 := by
  have h := (C3_mean_score exampleClaims).2 (by simp [exampleClaims])
  constructor
  · rw [(h.2.2.2 (by decide)).1]
    rfl
  · rw [h.1]
    rfl

/-- With an API key configured, `check_claim` issues exactly one HTTP query,
the claim text truncated to 200 characters. -/
theorem check_claim_queries (oracle : Str → ApiReply) (ct : Str) :
    (check_claim true oracle ct).queries = [ct.take 200] := by
  unfold check_claim
  rw [if_neg (by simp)]
  cases h : oracle (ct.take 200) <;> simp [h]

/-- C4: with an API key configured, the first query uses the title truncated
to 200 characters; one fallback query — on the first sentence of the content
(split on `'.'`, truncated to 200 characters) — is issued exactly when the
primary result's status is `no_matching_claims` and the content is
non-empty; at most two queries ever happen, and none beyond the primary when
the content is empty. -/
theorem C4_query_strategy (oracle : Str → ApiReply) (title content : Str) :
    (check_veracity true oracle title content).queries.head? = some (title.take 200) ∧
    1 ≤ (check_veracity true oracle title content).queries.length ∧
    (check_veracity true oracle title content).queries.length ≤ 2 ∧
    ((check_veracity true oracle title content).queries.length = 2 ↔
      ((check_claim true oracle title).result.status = some Status.no_matching_claims ∧
        content ≠ [])) ∧
    ((check_claim true oracle title).result.status = some Status.no_matching_claims →
      content ≠ [] →
      (check_veracity true oracle title content).queries
        = [title.take 200, (firstSentence content).take 200]) ∧
    (content = [] →
      (check_veracity true oracle title content).queries = [title.take 200]) := by
  unfold check_veracity
  by_cases hc : (check_claim true oracle title).result.status
      = some Status.no_matching_claims ∧ content ≠ []
  · rw [if_pos hc]
    refine ⟨?_, ?_, ?_, ?_, ?_, ?_⟩
    · simp only [check_claim_queries]
      rfl
    · simp only [check_claim_queries]
      simp
    · simp only [check_claim_queries]
      simp
    · simp only [check_claim_queries]
      simp [hc]
    · intro h1 h2
      simp only [check_claim_queries]
      simp [List.take_take]
    · intro h
      exact absurd h hc.2
  · rw [if_neg hc]
    refine ⟨?_, ?_, ?_, ?_, ?_, ?_⟩
    · simp only [check_claim_queries]
      rfl
    · simp only [check_claim_queries]
      simp
    · simp only [check_claim_queries]
      simp
    · simp only [check_claim_queries]
      simp [hc]
    · intro h1 h2
      exact absurd ⟨h1, h2⟩ hc
    · intro h
      simp only [check_claim_queries]

/-- C4 witness: a concrete oracle that always answers with zero matching
claims makes the primary query report `no_matching_claims`, so exactly the
two queries happen on a non-empty content, in order. -/
theorem C4_query_strategy_witness :
    (check_veracity true (fun _ => ApiReply.ok []) (("Headline").toList)
        (("First part. Rest").toList)).queries
      = [(("Headline").toList).take 200,
         (firstSentence (("First part. Rest").toList)).take 200] :=
  (C4_query_strategy (fun _ => ApiReply.ok []) (("Headline").toList)
    (("First part. Rest").toList)).2.2.2.2.1 (by rfl) (by decide)

/-- C2: for an event that reaches dispatch, a raising subtask behaves exactly
as a successful subtask returning its neutral default — null summary, empty
term list, neutral veracity result — and the other three results are still
handed to persistence, whose committed state is produced; the event is never
aborted by the single failure. -/
theorem C2_subtask_isolation (now : ℕ) (db : DB) (ev : RawEvent)
    (k p : Option Str) (j : List JargonItem) (v : FactCheckResult)
    (hid : falsyOpt ev.id = false) (hc : ((ev.content).getD []).isEmpty = false) :
    process_article now db ev (Except.error ()) (Except.ok p) (Except.ok j)
        (Except.ok v) true
      = EventOutcome.done (save_to_database now db ((ev.id).getD []) none p j v) ∧
    process_article now db ev (Except.ok k) (Except.error ()) (Except.ok j)
        (Except.ok v) true
      = EventOutcome.done (save_to_database now db ((ev.id).getD []) k none j v) ∧
    process_article now db ev (Except.ok k) (Except.ok p) (Except.error ())
        (Except.ok v) true
      = EventOutcome.done (save_to_database now db ((ev.id).getD []) k p [] v) ∧
    process_article now db ev (Except.ok k) (Except.ok p) (Except.ok j)
        (Except.error ()) true
      = EventOutcome.done
          (save_to_database now db ((ev.id).getD []) k p j neutralVeracity) := by
  refine ⟨?_, ?_, ?_, ?_⟩ <;>
    · simp only [process_article]
      rw [if_neg (by simp [hid, hc])]
      simp only [save_tx_ok]

/-- C2 witness: the kid-summary subtask raises on a concrete event while the
other three succeed; the event still commits the other three results. -/
theorem C2_subtask_isolation_witness :
    process_article 7 exDB exEvent (Except.error ()) (Except.ok (some (("p").toList)))
        (Except.ok []) (Except.ok neutralVeracity) true
      = EventOutcome.done (save_to_database 7 exDB (("a1").toList) none
          (some (("p").toList)) [] neutralVeracity) :=
  (C2_subtask_isolation 7 exDB exEvent none (some (("p").toList)) []
    neutralVeracity (by rfl) (by rfl)).1

/-- C5: an event with a missing `id` or a missing `content` is dropped before
any subtask result is consulted — the outcome is `dropped` for every
combination of subtask results — and the loop just moves to the next
message, with no stored record changed. -/
theorem C5_drop_missing (now : ℕ) (db : DB) (ev : RawEvent)
    (kidR proR : Except Unit (Option Str)) (jarR : Except Unit (List JargonItem))
    (verR : Except Unit FactCheckResult) (commitOk : Bool)
    (h : ev.id = none ∨ ev.content = none) :
    process_article now db ev kidR proR jarR verR commitOk = EventOutcome.dropped ∧
    ∀ rest : List ConsumedMessage,
      runConsumer db (⟨ev, kidR, proR, jarR, verR, commitOk, now⟩ :: rest)
        = runConsumer db rest := by
  have hdrop : process_article now db ev kidR proR jarR verR commitOk
      = EventOutcome.dropped := by
    simp only [process_article]
    rcases h with h | h <;> rw [if_pos (by simp [h, falsyOpt])]
  exact ⟨hdrop, fun rest => by simp [runConsumer, stepConsumer, hdrop]⟩

/-- C5 witness: a concrete event without `id` is dropped. -/
theorem C5_drop_missing_witness :
    process_article 0 exDB ⟨none, some (("t").toList), some (("c").toList)⟩
        (Except.ok none) (Except.ok none) (Except.ok []) (Except.ok neutralVeracity)
        true
      = EventOutcome.dropped :=
  (C5_drop_missing 0 exDB ⟨none, some (("t").toList), some (("c").toList)⟩
    (Except.ok none) (Except.ok none) (Except.ok []) (Except.ok neutralVeracity)
    true (Or.inl rfl)).1

/-- C6: a persistence pass with a non-empty term list deletes every stored
jargon row of the article and inserts the new set (the valid items), while an
empty term list — the failed-extraction default included — leaves the stored
jargon rows completely untouched; the stored set is never partially merged. -/
theorem C6_jargon_wholesale (now : ℕ) (db : DB) (aid : Str) (k p : Option Str)
    (j : List JargonItem) (v : FactCheckResult) :
    (j = [] → (save_to_database now db aid k p j v).jargons = db.jargons) ∧
    (j ≠ [] → (findArticle db aid).isSome = true →
      (save_to_database now db aid k p j v).jargons
        = db.jargons.filter (fun r => !(r.article_id == aid))
            ++ j.filterMap (jargonRowOf aid)) := by
  constructor
  · intro hj
    subst hj
    by_cases hfa : (findArticle db aid).isSome = true
    · rw [save_jargons_found now db aid k p [] v hfa]
      rfl
    · unfold save_to_database
      rw [if_pos (by simp [Bool.not_eq_true] at hfa ⊢; exact hfa)]
  · intro hj hfa
    rw [save_jargons_found now db aid k p j v hfa, if_neg (by simpa using hj)]

/-- C6 witness: one valid extracted term for article `"a1"` replaces its
stored set wholesale, leaving the other article's row alone. -/
theorem C6_jargon_wholesale_witness :
    (save_to_database 3 exDB (("a1").toList) none none
        [JargonItem.dict (some (("nlp").toList)) (some (("dd").toList)) none]
        neutralVeracity).jargons
      = exDB.jargons.filter (fun r => !(r.article_id == ("a1").toList))
          ++ [JargonItem.dict (some (("nlp").toList)) (some (("dd").toList)) none].filterMap
            (jargonRowOf (("a1").toList)) :=
  (C6_jargon_wholesale 3 exDB (("a1").toList) none none
    [JargonItem.dict (some (("nlp").toList)) (some (("dd").toList)) none]
    neutralVeracity).2 (by decide) (by rfl)

/-- Mapping a field that the rewrite function preserves commutes over
`updateFirst`: the whole column is unchanged. -/
theorem map_updateFirst (p : α → Bool) (f : α → α) (g : α → β)
    (hg : ∀ x, g (f x) = g x) (l : List α) :
    (updateFirst p f l).map g = l.map g := by
  induction l with
  | nil => rfl
  | cons a as ih =>
    unfold updateFirst
    split_ifs
    · simp [hg]
    · simp [ih]

/-- C7 (code bug): the persistence pass never overwrites the stored claim
list — the `fact_check_claims` column of every article row survives every
save unchanged — because the assignments to `veracity_claims` and
`veracity_checked_at` (ai_consumer.py lines 191–192) target names that are
not columns of `Article` (models.py lines 53–75), so the session drops them
at commit and only `veracity_score` is persisted. On the failing input —
stored review `exStoredReview`, new result carrying score 50 and the fresh
claim list `[exNewReview]`, so the claim's overwrite condition holds — the
score is updated yet the stored claim list still reads `[exStoredReview]`
and no timestamp exists to be written. -/
theorem C7_claims_never_persisted :
    (∀ (now : ℕ) (db : DB) (aid : Str) (k p : Option Str) (j : List JargonItem)
        (v : FactCheckResult),
      (save_to_database now db aid k p j v).articles.map (fun a => a.fact_check_claims)
        = db.articles.map (fun a => a.fact_check_claims)) ∧
    (findArticle (save_to_database 5 exDB (("a1").toList) none none []
          ⟨some 50, [exNewReview], some Status.success⟩) (("a1").toList)).map
        (fun a => (a.veracity_score, a.fact_check_claims))
      = some (some 50, [exStoredReview]) ∧
    exStoredReview ≠ exNewReview := by
  refine ⟨?_, by rfl, by decide⟩
  intro now db aid k p j v
  by_cases hfa : (findArticle db aid).isSome = true
  · rw [save_articles_found now db aid k p j v hfa]
    split_ifs
    · exact map_updateFirst (fun a => a.id == aid) (applyVeracity now v)
        (fun a => a.fact_check_claims) (fun x => rfl) db.articles
    · rfl
  · unfold save_to_database
    rw [if_pos (by simp [Bool.not_eq_true] at hfa ⊢; exact hfa)]

/-- With a failing commit, `process_article` either drops the event, returns
the unchanged state (missing article, commit never attempted), or re-raises
after rollback. -/
theorem process_article_commitFail (now : ℕ) (db : DB) (ev : RawEvent)
    (kidR proR : Except Unit (Option Str)) (jarR : Except Unit (List JargonItem))
    (verR : Except Unit FactCheckResult) :
    process_article now db ev kidR proR jarR verR false = EventOutcome.dropped ∨
    process_article now db ev kidR proR jarR verR false = EventOutcome.done db ∨
    process_article now db ev kidR proR jarR verR false = EventOutcome.failed := by
  simp only [process_article]
  by_cases hd : (falsyOpt ev.id || ((ev.content).getD []).isEmpty) = true
  · left
    rw [if_pos hd]
  · right
    rw [if_neg hd]
    simp only [save_to_database_tx]
    by_cases hfa : (!(findArticle db ((ev.id).getD [])).isSome) = true
    · left
      rw [if_pos hfa]
    · right
      rw [if_neg hfa, if_neg (by simp)]

/-- C8: a persistence-layer failure during the save of an event with an
existing article makes the transactional save re-raise with every write of
the pass rolled back; the loop catches the error, the stored state stays
exactly what it was before that event, records committed for other events
are unaffected, and consumption continues with the remaining messages. -/
theorem C8_transaction_rollback (now : ℕ) (db : DB) (aid : Str) (k p : Option Str)
    (j : List JargonItem) (v : FactCheckResult)
    (hfa : (findArticle db aid).isSome = true) :
    save_to_database_tx false now db aid k p j v = Except.error () ∧
    (∀ (db0 : DB) (m : ConsumedMessage), m.commitOk = false →
      stepConsumer db0 m = db0) ∧
    (∀ (db0 : DB) (pre post : List ConsumedMessage) (m : ConsumedMessage),
      m.commitOk = false →
      runConsumer db0 (pre ++ m :: post) = runConsumer db0 (pre ++ post)) := by
  have hstep : ∀ (db0 : DB) (m : ConsumedMessage), m.commitOk = false →
      stepConsumer db0 m = db0 := by
    intro db0 m hm
    unfold stepConsumer
    rw [hm]
    rcases process_article_commitFail m.now db0 m.event m.kidR m.proR m.jarR m.verR
      with h | h | h <;> rw [h]
  refine ⟨?_, hstep, ?_⟩
  · unfold save_to_database_tx
    rw [if_neg (by simp [hfa]), if_neg (by simp)]
  · intro db0 pre post m hm
    induction pre generalizing db0 with
    | nil => simp [runConsumer, hstep db0 m hm]
    | cons x xs ih => simp [runConsumer, ih]

/-- C8 witness: a failing commit on the concrete store with article `"a1"`
re-raises. -/
theorem C8_transaction_rollback_witness :
    save_to_database_tx false 4 exDB (("a1").toList) none none [] neutralVeracity
      = Except.error () :=
  (C8_transaction_rollback 4 exDB (("a1").toList) none none [] neutralVeracity
    (by rfl)).1

/-- C9: when no article row with the event's id exists, the save returns the
store unchanged and raises nothing — the four enrichment results are simply
discarded. -/
theorem C9_missing_article (commitOk : Bool) (now : ℕ) (db : DB) (aid : Str)
    (k p : Option Str) (j : List JargonItem) (v : FactCheckResult)
    (h : findArticle db aid = none) :
    save_to_database_tx commitOk now db aid k p j v = Except.ok db ∧
    save_to_database now db aid k p j v = db := by
  constructor
  · unfold save_to_database_tx
    rw [if_pos (by simp [h])]
  · unfold save_to_database
    rw [if_pos (by simp [h])]

/-- C9 witness: saving against an empty store succeeds without writing. -/
theorem C9_missing_article_witness :
    save_to_database_tx true 0 emptyDB (("a1").toList) none none [] neutralVeracity
      = Except.ok emptyDB :=
  (C9_missing_article true 0 emptyDB (("a1").toList) none none [] neutralVeracity
    rfl).1

/-- C10: a non-empty `jargon_list` in which no element is a dict with a
truthy `term` still triggers the delete of all stored jargon rows of the
article while inserting nothing, leaving the article with zero stored
terms. -/
theorem C10_malformed_erases (now : ℕ) (db : DB) (aid : Str) (k p : Option Str)
    (j : List JargonItem) (v : FactCheckResult)
    (hj : j ≠ []) (hmal : ∀ i ∈ j, jargonRowOf aid i = none)
    (hfa : (findArticle db aid).isSome = true) :
    (save_to_database now db aid k p j v).jargons
      = db.jargons.filter (fun r => !(r.article_id == aid)) := by
  rw [save_jargons_found now db aid k p j v hfa, if_neg (by simpa using hj),
    List.filterMap_eq_nil_iff.mpr hmal, List.append_nil]

/-- C10 witness: two malformed items erase article `"a1"`'s stored terms. -/
theorem C10_malformed_erases_witness :
    (save_to_database 2 exDB (("a1").toList) none none
        [JargonItem.notDict, JargonItem.dict none none none] neutralVeracity).jargons
      = exDB.jargons.filter (fun r => !(r.article_id == ("a1").toList)) :=
  C10_malformed_erases 2 exDB (("a1").toList) none none
    [JargonItem.notDict, JargonItem.dict none none none] neutralVeracity
    (by decide) (by decide) (by rfl)

